import Mathlib

/-!
Shallow embedding of `src/main.py` (Kerliix OAuth backend, FastAPI).

The module-level mutable stores `PKCE_STORE : Dict[str, str]` and
`SESSION_STORE : Dict[str, dict]` are modelled as association lists observed
through key lookup; each HTTP handler becomes a function from the pair of
stores (plus its request inputs and the outcome of the external
`kerliix_client` call, passed as an oracle) to the updated stores and a
response.  A raised `HTTPException(status_code, detail)` becomes
`Except.error ⟨status_code, detail⟩`; note the global stores keep any
mutation made before the raise, which is why every handler returns the
stores even on the error path.
-/

namespace KerliixBackend

/-- A Python `dict` keyed by strings, modelled as an association list and
observed only through key lookup. -/
abbrev Dict (α : Type) := List (String × α)

/-- `d.get(k)` / `d[k]` lookup: first binding wins. -/
def dget {α : Type} : Dict α → String → Option α
  | [], _ => none
  | (k', v) :: rest, k => if k' = k then some v else dget rest k

/-- Removal of every binding for `k` (the mutation performed by
`d.pop(k, None)`). -/
def ddel {α : Type} (d : Dict α) (k : String) : Dict α :=
  d.filter (fun kv => kv.1 ≠ k)

/-- `d[k] = v` assignment, observed through `dget`. -/
def dset {α : Type} (d : Dict α) (k : String) (v : α) : Dict α :=
  (k, v) :: ddel d k

/-- `d.pop(k, None)`: the returned value and the mutated dict. -/
def dpop {α : Type} (d : Dict α) (k : String) : Option α × Dict α :=
  (dget d k, ddel d k)

/-- Python truthiness of an optional string: `None` and `""` are falsy. -/
def pyFalsy : Option String → Bool
  | none => true
  | some s => s = ""

/-- Python `a or b` on optional strings. -/
def pyOr (a b : Option String) : Option String :=
  if pyFalsy a then b else a

/-- The `detail` payload of an `HTTPException` or JSON body: either a plain
string or a string-keyed dict whose values may be `None`. -/
inductive Detail where
  | str : String → Detail
  | dict : Dict (Option String) → Detail
deriving DecidableEq

/-- An `HTTPException(status_code=..., detail=...)`. -/
structure Http where
  status : Nat
  detail : Detail
deriving DecidableEq

/-- Status code of a handler result, when it is an error. -/
def httpStatus {α : Type} : Except Http α → Option Nat
  | .error e => some e.status
  | .ok _ => none

/-- Token material held in a session record.  The handlers read it with
`getattr(token_obj, "access_token", None) or token_obj.get("access_token")`;
attribute access and key access hit the same underlying value, so one
optional field suffices. -/
structure TokenObj where
  access_token : Option String
deriving DecidableEq

/-- A `SESSION_STORE` value: a dict whose only key written by the code is
`"token"`; `token = none` models a record without token material (for which
both `not stored` on the empty dict and `"token" not in stored` hold). -/
structure SessionRecord where
  token : Option TokenObj
deriving DecidableEq

/-- The two module-level stores. -/
structure ServerState where
  pkce : Dict String
  sessions : Dict SessionRecord
deriving DecidableEq

/-- Result of `kerliix_client.get_auth_url(...)`: a dict with `url` and,
possibly under either spelling, a code verifier. -/
structure AuthResult where
  url : String
  codeVerifier : Option String
  code_verifier : Option String

/-- `GET /login` (lines 77–101).  `state` is the freshly generated random
state; `auth` the collaborator's result.  Returns the stores and either the
redirect URL or the raised `HTTPException`. -/
def login (st : ServerState) (state : String) (auth : AuthResult) :
    ServerState × Except Http String :=
  let code_verifier := pyOr auth.codeVerifier auth.code_verifier
  if pyFalsy code_verifier then
    (st, .error ⟨500, .str "PKCE code verifier not generated"⟩)
  else
    ({st with pkce := dset st.pkce state (code_verifier.getD "")},
      .ok auth.url)

/-- Query parameters of `GET /callback`. -/
structure CallbackParams where
  error : Option String
  error_description : Option String
  code : Option String
  state : Option String

/-- Outcome of `kerliix_client.exchangeCodeForToken(code, code_verifier)`:
success, a raised `OAuthError` (with its `code` and message), or any other
exception. -/
inductive ExchangeOutcome where
  | ok : TokenObj → ExchangeOutcome
  | oauthError : String → String → ExchangeOutcome
  | exn : String → ExchangeOutcome
deriving DecidableEq

/-- Successful callback response: the redirect target and the `session_id`
set in the cookie. -/
structure CallbackSuccess where
  redirect : String
  cookieSessionId : String
deriving DecidableEq

/-- `GET /callback` (lines 104–144).  `exchange` is the collaborator's
exchange call as a function of `(code, code_verifier)`; `freshSid` the
`secrets.token_urlsafe(24)` session id drawn on success. -/
def callback (st : ServerState) (p : CallbackParams)
    (exchange : String → String → ExchangeOutcome) (freshSid : String) :
    ServerState × Except Http CallbackSuccess :=
  if ¬ pyFalsy p.error then
    (st, .error ⟨400, .dict [("error", p.error), ("error_description", p.error_description)]⟩)
  else if pyFalsy p.code ∨ pyFalsy p.state then
    (st, .error ⟨400, .str "Missing code or state in callback"⟩)
  else
    let code := p.code.getD ""
    let state := p.state.getD ""
    let popped := dpop st.pkce state
    let st' := {st with pkce := popped.2}
    if pyFalsy popped.1 then
      (st', .error ⟨400, .str "Unknown or expired state (PKCE code verifier missing)"⟩)
    else
      match exchange code (popped.1.getD "") with
      | .oauthError ecode emsg =>
          (st', .error ⟨400, .dict [("oauth_error", some ecode), ("message", some emsg)]⟩)
      | .exn emsg =>
          (st', .error ⟨500, .str ("Token exchange failed: " ++ emsg)⟩)
      | .ok tok =>
          ({st' with sessions := dset st'.sessions freshSid ⟨some tok⟩},
            .ok ⟨"http://localhost:5176/?logged_in=1", freshSid⟩)

/-- The one-time consumption of a PKCE correlation record, exactly as the
callback performs it: `PKCE_STORE.pop(state, None)` (line 121). -/
def takeOnce (pkce : Dict String) (state : String) : Option String × Dict String :=
  dpop pkce state

/-- Outcome of `kerliix_client.getUserInfo(access_token)`. -/
inductive UserInfoOutcome where
  | ok : String → UserInfoOutcome
  | oauthError : String → String → UserInfoOutcome
  | exn : String → UserInfoOutcome
deriving DecidableEq

/-- `GET /me` (lines 147–172).  `cookieSid` is the `session_id` cookie;
`userinfo` the collaborator's call as a function of the access token drawn
from the stored token object. -/
def me (st : ServerState) (cookieSid : Option String)
    (userinfo : Option String → UserInfoOutcome) :
    ServerState × Except Http String :=
  if pyFalsy cookieSid then
    (st, .error ⟨401, .str "No session"⟩)
  else
    match dget st.sessions (cookieSid.getD "") with
    | none => (st, .error ⟨401, .str "No tokens found for session"⟩)
    | some stored =>
      match stored.token with
      | none => (st, .error ⟨401, .str "No tokens found for session"⟩)
      | some tok =>
        match userinfo (pyOr tok.access_token tok.access_token) with
        | .ok info => (st, .ok info)
        | .oauthError ecode emsg =>
            (st, .error ⟨401, .dict [("oauth_error", some ecode), ("message", some emsg)]⟩)
        | .exn emsg =>
            (st, .error ⟨500, .str ("Failed to fetch user info: " ++ emsg)⟩)

/-- Outcome of `kerliix_client.revokeToken(access_token)`. -/
inductive RevokeOutcome where
  | ok : RevokeOutcome
  | oauthError : String → String → RevokeOutcome
  | exn : String → RevokeOutcome
deriving DecidableEq

/-- The `JSONResponse` returned by `/revoke`: the `revoked` flag, the
optional `error`/`message` body fields, and whether `delete_cookie` was
called on it.  A raised `HTTPException` never clears the cookie, so that
path is an `Except.error` carrying no such flag. -/
structure RevokeResponse where
  revoked : Bool
  error : Option String
  message : Option String
  cookieCleared : Bool
deriving DecidableEq

/-- `POST /revoke` (lines 175–209). -/
def revoke (st : ServerState) (cookieSid : Option String)
    (revokeTok : Option String → RevokeOutcome) :
    ServerState × Except Http RevokeResponse :=
  if pyFalsy cookieSid then
    (st, .error ⟨401, .str "No session"⟩)
  else
    let sid := cookieSid.getD ""
    match dget st.sessions sid with
    | none => (st, .error ⟨400, .str "No token to revoke"⟩)
    | some stored =>
      match stored.token with
      | none => (st, .error ⟨400, .str "No token to revoke"⟩)
      | some tok =>
        let st' := {st with sessions := ddel st.sessions sid}
        match revokeTok (pyOr tok.access_token tok.access_token) with
        | .oauthError ecode emsg =>
            (st', .ok ⟨false, some ecode, some emsg, true⟩)
        | .exn emsg =>
            (st', .ok ⟨false, none, some emsg, true⟩)
        | .ok =>
            (st', .ok ⟨true, none, none, true⟩)

/-- `GET /tokens` (lines 212–233).  On success returns the stored token
material verbatim.  `if not stored` is falsy both for a missing session and
for an empty record, i.e. one without token material. -/
def tokens (st : ServerState) (cookieSid : Option String) :
    ServerState × Except Http TokenObj :=
  if pyFalsy cookieSid then
    (st, .error ⟨401, .str "No session"⟩)
  else
    match dget st.sessions (cookieSid.getD "") with
    | none => (st, .error ⟨404, .str "No token for session"⟩)
    | some stored =>
      match stored.token with
      | none => (st, .error ⟨404, .str "No token for session"⟩)
      | some tok => (st, .ok tok)

theorem dget_ddel_self {α : Type} (d : Dict α) (k : String) :
    dget (ddel d k) k = none := by
  induction d with
  | nil => rfl
  | cons kv rest ih =>
    by_cases h : kv.1 = k
    · simpa [ddel, List.filter, h] using ih
    · simpa [ddel, List.filter, h, dget] using ih

theorem dget_dset_self {α : Type} (d : Dict α) (k : String) (v : α) :
    dget (dset d k v) k = some v := by
  simp [dset, dget]

theorem ddel_of_absent {α : Type} (d : Dict α) (k : String)
    (h : dget d k = none) : ddel d k = d := by
  induction d with
  | nil => rfl
  | cons kv rest ih =>
    rw [dget] at h
    by_cases hk : kv.1 = k
    · simp [hk] at h
    · rw [if_neg hk] at h
      simp [ddel, List.filter, hk] at ih ⊢
      exact ih h

/-- C1: `takeOnce(state)` (the callback's `PKCE_STORE.pop`) yields a code
verifier at most once — after any take of `state` a second take reports
absence — and a callback presenting a `state` absent from the store (never
registered or already consumed) fails with a 400 error and creates no
session. -/
theorem c1_state_consumed_at_most_once
    (pkce : Dict String) (s : String) (st : ServerState)
    (exchange : String → String → ExchangeOutcome) (c freshSid : String)
    (hc : c ≠ "") (hs : s ≠ "") (habsent : dget st.pkce s = none) :
    (takeOnce (takeOnce pkce s).2 s).1 = none ∧
    (callback st ⟨none, none, some c, some s⟩ exchange freshSid).2 =
      .error ⟨400, .str "Unknown or expired state (PKCE code verifier missing)"⟩ ∧
    (callback st ⟨none, none, some c, some s⟩ exchange freshSid).1.sessions =
      st.sessions := by
  refine ⟨dget_ddel_self pkce s, ?_, ?_⟩ <;>
    simp [callback, pyFalsy, hc, hs, dpop, habsent]

/-- Witness for C1 at a singleton PKCE store and an empty server state. -/
theorem c1_witness :
    (takeOnce (takeOnce [("s0", "v0")] "s0").2 "s0").1 = none ∧
    (callback ⟨[], []⟩ ⟨none, none, some "c0", some "s0"⟩
        (fun _ _ => .exn "e") "sid0").2 =
      .error ⟨400, .str "Unknown or expired state (PKCE code verifier missing)"⟩ ∧
    (callback ⟨[], []⟩ ⟨none, none, some "c0", some "s0"⟩
        (fun _ _ => .exn "e") "sid0").1.sessions = ([] : Dict SessionRecord) :=
  c1_state_consumed_at_most_once [("s0", "v0")] "s0" ⟨[], []⟩
    (fun _ _ => .exn "e") "c0" "sid0" (by decide) (by decide) rfl

/-- C2: for a session holding token material, `/revoke` deletes the session
from the store and clears the cookie in all three remote outcomes, and the
returned body's `revoked` flag is true exactly when the remote revoke
succeeded. -/
theorem c2_revoke_always_deletes
    (st : ServerState) (sid : String) (hsid : sid ≠ "") (tok : TokenObj)
    (hstored : dget st.sessions sid = some ⟨some tok⟩)
    (outcome : RevokeOutcome) :
    (revoke st (some sid) (fun _ => outcome)).1.sessions = ddel st.sessions sid ∧
    (revoke st (some sid) (fun _ => outcome)).1.pkce = st.pkce ∧
    ∃ resp, (revoke st (some sid) (fun _ => outcome)).2 = .ok resp ∧
      resp.cookieCleared = true ∧ (resp.revoked = true ↔ outcome = .ok) := by
  cases outcome <;> simp [revoke, pyFalsy, hsid, hstored]

/-- Witness for C2 with a provider revoke that raises `OAuthError`. -/
theorem c2_witness :
    (revoke ⟨[], [("sid0", ⟨some ⟨some "at0"⟩⟩)]⟩ (some "sid0")
        (fun _ => RevokeOutcome.oauthError "invalid_token" "m")).1.sessions =
      ddel [("sid0", ⟨some ⟨some "at0"⟩⟩)] "sid0" ∧
    (revoke ⟨[], [("sid0", ⟨some ⟨some "at0"⟩⟩)]⟩ (some "sid0")
        (fun _ => RevokeOutcome.oauthError "invalid_token" "m")).1.pkce =
      ([] : Dict String) ∧
    ∃ resp, (revoke ⟨[], [("sid0", ⟨some ⟨some "at0"⟩⟩)]⟩ (some "sid0")
        (fun _ => RevokeOutcome.oauthError "invalid_token" "m")).2 = .ok resp ∧
      resp.cookieCleared = true ∧
      (resp.revoked = true ↔ RevokeOutcome.oauthError "invalid_token" "m" = .ok) :=
  c2_revoke_always_deletes ⟨[], [("sid0", ⟨some ⟨some "at0"⟩⟩)]⟩ "sid0"
    (by decide) ⟨some "at0"⟩ rfl (RevokeOutcome.oauthError "invalid_token" "m")

/-- C6: when the collaborator's `get_auth_url` result carries no usable code
verifier under either key spelling, `/login` fails with the 500
`PKCE code verifier not generated` error and leaves both stores untouched:
no correlation record is registered and no non-PKCE redirect is issued. -/
theorem c6_pkce_generation_failure
    (st : ServerState) (s : String) (auth : AuthResult)
    (h1 : auth.codeVerifier = none ∨ auth.codeVerifier = some "")
    (h2 : auth.code_verifier = none ∨ auth.code_verifier = some "") :
    (login st s auth).1 = st ∧
    (login st s auth).2 = .error ⟨500, .str "PKCE code verifier not generated"⟩ := by
  have hf : pyFalsy (pyOr auth.codeVerifier auth.code_verifier) = true := by
    rcases h1 with h1 | h1 <;> rcases h2 with h2 | h2 <;> simp [pyOr, pyFalsy, h1, h2]
  constructor <;> simp [login, hf]

/-- Witness for C6 with a collaborator result carrying neither key. -/
theorem c6_witness :
    (login ⟨[], []⟩ "s0" ⟨"u0", none, none⟩).1 = (⟨[], []⟩ : ServerState) ∧
    (login ⟨[], []⟩ "s0" ⟨"u0", none, none⟩).2 =
      .error ⟨500, .str "PKCE code verifier not generated"⟩ :=
  c6_pkce_generation_failure ⟨[], []⟩ "s0" ⟨"u0", none, none⟩
    (Or.inl rfl) (Or.inl rfl)

/-- C7: a callback with no `error` parameter but with `code` or `state`
missing (absent or empty) fails with the 400 `Missing code or state` error
and leaves the whole server state — in particular the session store —
unchanged. -/
theorem c7_missing_code_or_state
    (st : ServerState) (p : CallbackParams)
    (exchange : String → String → ExchangeOutcome) (freshSid : String)
    (hnoerr : p.error = none ∨ p.error = some "")
    (hmiss : (p.code = none ∨ p.code = some "") ∨
      (p.state = none ∨ p.state = some "")) :
    (callback st p exchange freshSid).2 =
      .error ⟨400, .str "Missing code or state in callback"⟩ ∧
    (callback st p exchange freshSid).1 = st := by
  have he : pyFalsy p.error = true := by
    rcases hnoerr with h | h <;> simp [pyFalsy, h]
  have hm : pyFalsy p.code = true ∨ pyFalsy p.state = true := by
    rcases hmiss with h | h <;> rcases h with h | h <;> simp [pyFalsy, h]
  constructor <;> simp [callback, he, hm]

/-- Witness for C7 at a callback carrying `code` but no `state`. -/
theorem c7_witness :
    (callback ⟨[("s0", "v0")], []⟩ ⟨none, none, some "c0", none⟩
        (fun _ _ => .exn "e") "sid0").2 =
      .error ⟨400, .str "Missing code or state in callback"⟩ ∧
    (callback ⟨[("s0", "v0")], []⟩ ⟨none, none, some "c0", none⟩
        (fun _ _ => .exn "e") "sid0").1 = (⟨[("s0", "v0")], []⟩ : ServerState) :=
  c7_missing_code_or_state ⟨[("s0", "v0")], []⟩ ⟨none, none, some "c0", none⟩
    (fun _ _ => .exn "e") "sid0" (Or.inl rfl) (Or.inr (Or.inl rfl))

/-- C10: `/revoke` on a cookie resolving to a session record that exists but
holds no token material fails with the 400 `No token to revoke` error and
leaves the server state unchanged; since an `HTTPException` path never calls
`delete_cookie`, the cookie is not cleared either. -/
theorem c10_revoke_without_token_is_pure
    (st : ServerState) (sid : String) (hsid : sid ≠ "")
    (hstored : dget st.sessions sid = some ⟨none⟩)
    (revokeTok : Option String → RevokeOutcome) :
    (revoke st (some sid) revokeTok).1 = st ∧
    (revoke st (some sid) revokeTok).2 = .error ⟨400, .str "No token to revoke"⟩ := by
  constructor <;> simp [revoke, pyFalsy, hsid, hstored]

/-- Witness for C10 at a store holding one token-less session record. -/
theorem c10_witness :
    (revoke ⟨[], [("sid0", ⟨none⟩)]⟩ (some "sid0") (fun _ => .ok)).1 =
      (⟨[], [("sid0", ⟨none⟩)]⟩ : ServerState) ∧
    (revoke ⟨[], [("sid0", ⟨none⟩)]⟩ (some "sid0") (fun _ => .ok)).2 =
      .error ⟨400, .str "No token to revoke"⟩ :=
  c10_revoke_without_token_is_pure ⟨[], [("sid0", ⟨none⟩)]⟩ "sid0"
    (by decide) rfl (fun _ => .ok)

/-- C3 counterexample: `/tokens` with a cookie whose session id is absent
from the session store answers 404, not a 401-class error, so token
introspection does not fail with 401 in that case as the claim states. -/
theorem c3_counterexample :
    httpStatus (tokens ⟨[], []⟩ (some "sid1")).2 = some 404 ∧
    some 404 ≠ some 401 := by
  exact ⟨rfl, by decide⟩

/-- C3 amended: `/me` fails with 401 both with no cookie and with a cookie
referencing an unknown session; `/tokens` fails with 401 when no cookie is
presented but with 404 when the cookie references an unknown session. -/
theorem c3_session_gating
    (st : ServerState) (sid : String) (hsid : sid ≠ "")
    (habsent : dget st.sessions sid = none)
    (userinfo : Option String → UserInfoOutcome) :
    httpStatus (me st none userinfo).2 = some 401 ∧
    httpStatus (me st (some sid) userinfo).2 = some 401 ∧
    httpStatus (tokens st none).2 = some 401 ∧
    httpStatus (tokens st (some sid)).2 = some 404 := by
  refine ⟨rfl, ?_, rfl, ?_⟩ <;>
    simp [me, tokens, pyFalsy, hsid, habsent, httpStatus]

/-- Witness for the amended C3 at an empty session store. -/
theorem c3_witness :
    httpStatus (me ⟨[], []⟩ none (fun _ => .exn "e")).2 = some 401 ∧
    httpStatus (me ⟨[], []⟩ (some "sid1") (fun _ => .exn "e")).2 = some 401 ∧
    httpStatus (tokens ⟨[], []⟩ none).2 = some 401 ∧
    httpStatus (tokens ⟨[], []⟩ (some "sid1")).2 = some 404 :=
  c3_session_gating ⟨[], []⟩ "sid1" (by decide) rfl (fun _ => .exn "e")

/-- C4 counterexample: with `"s1"` already registered with verifier `"v1"`,
`/login` for the same state succeeds (no `DuplicateStateError` or any other
failure) and silently replaces the stored verifier with `"v2"`. -/
theorem c4_counterexample :
    (login ⟨[("s1", "v1")], []⟩ "s1" ⟨"u0", some "v2", none⟩).2 = .ok "u0" ∧
    dget (login ⟨[("s1", "v1")], []⟩ "s1" ⟨"u0", some "v2", none⟩).1.pkce "s1" =
      some "v2" := by
  exact ⟨rfl, rfl⟩

/-- C4 amended: registering a correlation record for a state already present
in the PKCE store never fails; the assignment `PKCE_STORE[state] = ...`
silently replaces the existing record's verifier and the login succeeds. -/
theorem c4_put_overwrites
    (st : ServerState) (s oldV newV url : String)
    (hdup : dget st.pkce s = some oldV) (hnew : newV ≠ "") :
    (login st s ⟨url, some newV, none⟩).2 = .ok url ∧
    dget (login st s ⟨url, some newV, none⟩).1.pkce s = some newV := by
  constructor <;> simp [login, pyOr, pyFalsy, hnew, dget_dset_self]

/-- Witness for the amended C4 at a singleton PKCE store. -/
theorem c4_witness :
    (login ⟨[("s1", "v1")], []⟩ "s1" ⟨"u0", some "v2", none⟩).2 = .ok "u0" ∧
    dget (login ⟨[("s1", "v1")], []⟩ "s1" ⟨"u0", some "v2", none⟩).1.pkce "s1" =
      some "v2" :=
  c4_put_overwrites ⟨[("s1", "v1")], []⟩ "s1" "v1" "v2" "u0" rfl (by decide)

/-- C5 counterexample: the Scenario C callback
`error=access_denied, error_description=user cancelled` yields a 400 whose
detail dict keys the provider code as `error`; the dict has no `oauth_error`
key at all, contradicting the claimed body shape. -/
theorem c5_counterexample :
    (callback ⟨[], []⟩ ⟨some "access_denied", some "user cancelled", none, none⟩
        (fun _ _ => .exn "e") "sid0").2 =
      .error ⟨400, .dict [("error", some "access_denied"),
        ("error_description", some "user cancelled")]⟩ ∧
    dget [("error", some "access_denied"),
      ("error_description", some "user cancelled")] "oauth_error" = none := by
  exact ⟨rfl, rfl⟩

/-- C5 amended: a callback with a truthy `error` parameter fails with a 400
whose body carries the provider's error code under the key `error` (not
`oauth_error`) and its description verbatim; the stores are untouched and no
code exchange is attempted (the result does not depend on the exchange
oracle). -/
theorem c5_provider_error_passthrough
    (st : ServerState) (e : String) (he : e ≠ "")
    (desc code state : Option String)
    (exchange : String → String → ExchangeOutcome) (freshSid : String) :
    (callback st ⟨some e, desc, code, state⟩ exchange freshSid).1 = st ∧
    (callback st ⟨some e, desc, code, state⟩ exchange freshSid).2 =
      .error ⟨400, .dict [("error", some e), ("error_description", desc)]⟩ := by
  constructor <;> simp [callback, pyFalsy, he]

/-- Witness for the amended C5 at the Scenario C input. -/
theorem c5_witness :
    (callback ⟨[], []⟩ ⟨some "access_denied", some "user cancelled", none, none⟩
        (fun _ _ => .exn "e") "sid0").1 = (⟨[], []⟩ : ServerState) ∧
    (callback ⟨[], []⟩ ⟨some "access_denied", some "user cancelled", none, none⟩
        (fun _ _ => .exn "e") "sid0").2 =
      .error ⟨400, .dict [("error", some "access_denied"),
        ("error_description", some "user cancelled")]⟩ :=
  c5_provider_error_passthrough ⟨[], []⟩ "access_denied" (by decide)
    (some "user cancelled") none none (fun _ _ => .exn "e") "sid0"

/-- C8: `/me` on a valid session whose userinfo call raises `OAuthError`
fails with 401 and leaves the whole server state — in particular the session
record — unchanged. -/
theorem c8_userinfo_failure_session_intact
    (st : ServerState) (sid : String) (hsid : sid ≠ "") (tok : TokenObj)
    (hstored : dget st.sessions sid = some ⟨some tok⟩) (ecode emsg : String) :
    (me st (some sid) (fun _ => .oauthError ecode emsg)).1 = st ∧
    (me st (some sid) (fun _ => .oauthError ecode emsg)).2 =
      .error ⟨401, .dict [("oauth_error", some ecode), ("message", some emsg)]⟩ ∧
    dget (me st (some sid) (fun _ => .oauthError ecode emsg)).1.sessions sid =
      some ⟨some tok⟩ := by
  refine ⟨?_, ?_, ?_⟩ <;> simp [me, pyFalsy, hsid, hstored]

/-- Witness for C8 at a singleton session store. -/
theorem c8_witness :
    (me ⟨[], [("sid0", ⟨some ⟨some "at0"⟩⟩)]⟩ (some "sid0")
        (fun _ => .oauthError "invalid_token" "m")).1 =
      (⟨[], [("sid0", ⟨some ⟨some "at0"⟩⟩)]⟩ : ServerState) ∧
    (me ⟨[], [("sid0", ⟨some ⟨some "at0"⟩⟩)]⟩ (some "sid0")
        (fun _ => .oauthError "invalid_token" "m")).2 =
      .error ⟨401, .dict [("oauth_error", some "invalid_token"), ("message", some "m")]⟩ ∧
    dget (me ⟨[], [("sid0", ⟨some ⟨some "at0"⟩⟩)]⟩ (some "sid0")
        (fun _ => .oauthError "invalid_token" "m")).1.sessions "sid0" =
      some ⟨some ⟨some "at0"⟩⟩ :=
  c8_userinfo_failure_session_intact ⟨[], [("sid0", ⟨some ⟨some "at0"⟩⟩)]⟩
    "sid0" (by decide) ⟨some "at0"⟩ rfl "invalid_token" "m"

/-- C9: a callback that passes state validation but whose exchange fails —
with `OAuthError` (400) or any other exception (500) — has already consumed
the state from the PKCE store, which is not restored: no session is created,
and re-presenting the same callback fails with the unknown-or-expired-state
400 error instead of retrying the exchange. -/
theorem c9_failed_exchange_consumes_state
    (st : ServerState) (c s cv : String)
    (hc : c ≠ "") (hs : s ≠ "") (hcv : cv ≠ "")
    (hreg : dget st.pkce s = some cv)
    (exchange : String → String → ExchangeOutcome)
    (hfail : (∃ ec em, exchange c cv = .oauthError ec em) ∨
      ∃ em, exchange c cv = .exn em)
    (sid1 sid2 : String) :
    (httpStatus (callback st ⟨none, none, some c, some s⟩ exchange sid1).2 = some 400 ∨
      httpStatus (callback st ⟨none, none, some c, some s⟩ exchange sid1).2 = some 500) ∧
    dget (callback st ⟨none, none, some c, some s⟩ exchange sid1).1.pkce s = none ∧
    (callback st ⟨none, none, some c, some s⟩ exchange sid1).1.sessions = st.sessions ∧
    (callback (callback st ⟨none, none, some c, some s⟩ exchange sid1).1
        ⟨none, none, some c, some s⟩ exchange sid2).2 =
      .error ⟨400, .str "Unknown or expired state (PKCE code verifier missing)"⟩ := by
  have hdel : dget (ddel st.pkce s) s = none := dget_ddel_self st.pkce s
  rcases hfail with ⟨ec, em, hx⟩ | ⟨em, hx⟩ <;>
    refine ⟨?_, ?_, ?_, ?_⟩ <;>
      simp [callback, pyFalsy, hc, hs, hcv, dpop, hreg, hx, httpStatus, hdel]

/-- Witness for C9 with an exchange that raises `OAuthError invalid_grant`. -/
theorem c9_witness :
    (httpStatus (callback ⟨[("s0", "v0")], []⟩ ⟨none, none, some "c0", some "s0"⟩
        (fun _ _ => .oauthError "invalid_grant" "m") "sid1").2 = some 400 ∨
      httpStatus (callback ⟨[("s0", "v0")], []⟩ ⟨none, none, some "c0", some "s0"⟩
        (fun _ _ => .oauthError "invalid_grant" "m") "sid1").2 = some 500) ∧
    dget (callback ⟨[("s0", "v0")], []⟩ ⟨none, none, some "c0", some "s0"⟩
        (fun _ _ => .oauthError "invalid_grant" "m") "sid1").1.pkce "s0" = none ∧
    (callback ⟨[("s0", "v0")], []⟩ ⟨none, none, some "c0", some "s0"⟩
        (fun _ _ => .oauthError "invalid_grant" "m") "sid1").1.sessions =
      ([] : Dict SessionRecord) ∧
    (callback (callback ⟨[("s0", "v0")], []⟩ ⟨none, none, some "c0", some "s0"⟩
          (fun _ _ => .oauthError "invalid_grant" "m") "sid1").1
        ⟨none, none, some "c0", some "s0"⟩
        (fun _ _ => .oauthError "invalid_grant" "m") "sid2").2 =
      .error ⟨400, .str "Unknown or expired state (PKCE code verifier missing)"⟩ :=
  c9_failed_exchange_consumes_state ⟨[("s0", "v0")], []⟩ "c0" "s0" "v0"
    (by decide) (by decide) (by decide) rfl
    (fun _ _ => .oauthError "invalid_grant" "m")
    (Or.inl ⟨"invalid_grant", "m", rfl⟩) "sid1" "sid2"

end KerliixBackend
